import Mathlib

/-!
Verification development for the core-mission-control repository.

Part 1: the Ops Specialist workflow engine
(`src/orchestrator/ops-specialist/index.ts`): conflict resolution,
delivery-report generation and the final-QA gate, over the order-scoped
`followups` and `operation_logs` tables.

Part 2: the Health Record Store access layer
(`orchestrator/worker/entrypoints/HealthOps.ts`): CRUD and paginated,
filtered listing over the `health_checks` and `worker_health_checks`
tables.

Databases are embedded as lists of rows; nullable columns are `Option`;
D1 numbers are `Int` for timestamps, `Nat` for counts and identifiers,
`Rat` for health scores.  SQL `ORDER BY` is embedded as an insertion
sort by the ordering key (with `NULL` sorting below every value, as in
SQLite), `LIMIT`/`OFFSET` as `List.take`/`List.drop`.
-/

/-- A row of the `followups` table (order-scoped remediation item). -/
structure FollowupRow where
  order_id : String
  type : String
  impact_level : Int
  file_path : Option String
  message : String
  deriving Repr, DecidableEq

/-- A row of the `operation_logs` table. -/
structure OperationLogRow where
  order_id : String
  message : String
  deriving Repr, DecidableEq

/-- The order-scoped D1 database read by the Ops Specialist. -/
structure OrdersDB where
  followups : List FollowupRow
  operation_logs : List OperationLogRow
  deriving Repr, DecidableEq

/-- The `ORDER BY impact_level ASC` comparison used by the delivery report. -/
def impactLe (a b : FollowupRow) : Prop :=
  a.impact_level ≤ b.impact_level

instance : DecidableRel impactLe := fun a b =>
  inferInstanceAs (Decidable (a.impact_level ≤ b.impact_level))

instance : IsTotal FollowupRow impactLe :=
  ⟨fun a b => le_total a.impact_level b.impact_level⟩

instance : IsTrans FollowupRow impactLe :=
  ⟨fun _ _ _ hab hbc => le_trans hab hbc⟩

/-- Summary block of a delivery report. -/
structure DeliverySummary where
  issues : Nat
  ops_count : Nat
  last_updated : String
  deriving Repr, DecidableEq

/-- The value returned by `OpsSpecialist.generateDeliveryReport`. -/
structure DeliveryReport where
  order_id : String
  summary : DeliverySummary
  followups : List FollowupRow
  operations : List OperationLogRow
  deriving Repr, DecidableEq

/-- Embedding of `OpsSpecialist.generateDeliveryReport`: reads the order's followups
ordered by ascending impact level and its operation logs, and assembles
the report.  `now` stands for `new Date().toISOString()`. -/
def generateDeliveryReport (db : OrdersDB) (orderId : String) (now : String) :
    DeliveryReport :=
  let results :=
    List.insertionSort impactLe
      (db.followups.filter (fun f => f.order_id == orderId))
  let ops := db.operation_logs.filter (fun o => o.order_id == orderId)
  { order_id := orderId
    summary :=
      { issues := results.length
        ops_count := ops.length
        last_updated := now }
    followups := results
    operations := ops }

/-- The structured payload sent to the issue-tracking collaborator. -/
structure IssueContext where
  error_code : Option String
  file_path : String
  message : String
  order_id : Option String
  deriving Repr, DecidableEq

/-- Failure of the issue-tracking collaborator. -/
inductive RemediationError where
  | issueCreationFailed
  deriving Repr, DecidableEq

/-- Modelled from the spec: `githubRemediation.createIssue` lives in
`orchestrator/worker/services/remediation/githubRemediation`, which is not
part of the inspected sources.  Per the spec it opens one tracking issue
carrying the structured context plus a note, and fails with
`RemediationError` if issue creation itself fails.  The external
collaborator's outcome is the `backendFails` flag; on success the single
dispatched issue is returned for observation. -/
def createIssue (backendFails : Bool) (ctx : IssueContext) (note : String) :
    Except RemediationError (List (IssueContext × String)) :=
  if backendFails then
    Except.error RemediationError.issueCreationFailed
  else
    Except.ok [(ctx, note)]

/-- Embedding of `OpsSpecialist.resolveConflict`: dispatches one remediation issue
describing the merge conflict. -/
def resolveConflict (backendFails : Bool) (repo branch : String)
    (conflictFiles : List String) :
    Except RemediationError (List (IssueContext × String)) :=
  let note := "Conflict detected in " ++ repo ++ ":" ++ branch ++ " → " ++
    String.intercalate ", " conflictFiles
  createIssue backendFails
    { error_code := some "merge_conflict"
      file_path := conflictFiles.headD "unknown"
      message := note
      order_id := none }
    "Ops Specialist auto-detected conflict and opened an issue."

/-- The value returned by `OpsSpecialist.finalQA`, extended with the list
of issues dispatched along the way (for observation). -/
structure FinalQAResult where
  report : DeliveryReport
  status : String
  issues : List (IssueContext × String)
  deriving Repr, DecidableEq

/-- Embedding of `OpsSpecialist.finalQA`: builds the delivery report, filters followups
of type `blocked`; if any remain, dispatches a remediation issue
referencing the first blocked item's file path and the blocked count, then
returns status `failed`; otherwise returns `passed`.  The awaited
`createIssue` call is not wrapped in any `try`/`catch`, so its failure
propagates. -/
def finalQA (backendFails : Bool) (db : OrdersDB) (orderId : String)
    (now : String) : Except RemediationError FinalQAResult :=
  let report := generateDeliveryReport db orderId now
  let blocked := report.followups.filter (fun f => f.type == "blocked")
  match blocked with
  | [] => Except.ok { report := report, status := "passed", issues := [] }
  | b :: bs =>
    match createIssue backendFails
        { order_id := some orderId
          file_path := b.file_path.getD "unknown"
          error_code := some "final_qa_blocked"
          message := toString (b :: bs).length ++ " unresolved blockers." }
        "Final QA failed — unresolved followups remain." with
    | Except.error e => Except.error e
    | Except.ok issues =>
      Except.ok { report := report, status := "failed", issues := issues }

/-! ## Health Record Store (`HealthOps`) -/

/-- A stored row of the `health_checks` table (nullable columns are
`Option`). -/
structure HealthCheckRow where
  id : Nat
  healthCheckUuid : String
  triggerType : String
  triggerSource : Option String
  status : Option String
  totalWorkers : Option Nat
  completedWorkers : Option Nat
  passedWorkers : Option Nat
  failedWorkers : Option Nat
  overallHealthScore : Option Rat
  aiAnalysis : Option String
  aiRecommendations : Option String
  startedAt : Option Int
  completedAt : Option Int
  timeoutAt : Option Int
  createdAt : Option Int
  deriving Repr, DecidableEq

/-- A stored row of the `worker_health_checks` table. -/
structure WorkerHealthCheckRow where
  id : Nat
  workerCheckUuid : String
  healthCheckUuid : String
  workerName : String
  workerType : String
  workerUrl : Option String
  status : Option String
  overallStatus : Option String
  healthScore : Option Rat
  createdAt : Option Int
  completedAt : Option Int
  deriving Repr, DecidableEq

/-- The `DB_HEALTH` database: two tables plus the auto-increment counter
feeding the integer row identifiers. -/
structure HealthDB where
  healthChecks : List HealthCheckRow
  workerHealthChecks : List WorkerHealthCheckRow
  nextId : Nat
  deriving Repr, DecidableEq

/-- The `HealthCheckResponse` interface of `HealthOps`: every field is
present, nullable storage coalesced exactly as in the source (`?? 0`,
`?? 0.0`, `?? 'running'`, `?? Date.now()`, `?? null`). -/
structure HealthCheckResponse where
  id : Nat
  healthCheckUuid : String
  triggerType : String
  triggerSource : Option String
  status : String
  totalWorkers : Nat
  completedWorkers : Nat
  passedWorkers : Nat
  failedWorkers : Nat
  overallHealthScore : Rat
  aiAnalysis : Option String
  aiRecommendations : Option String
  startedAt : Int
  completedAt : Option Int
  timeoutAt : Option Int
  createdAt : Int
  deriving Repr, DecidableEq

/-- The `WorkerHealthCheckResponse` interface of `HealthOps`. -/
structure WorkerHealthCheckResponse where
  id : Nat
  workerCheckUuid : String
  healthCheckUuid : String
  workerName : String
  workerType : String
  workerUrl : Option String
  status : String
  overallStatus : Option String
  healthScore : Rat
  createdAt : Int
  completedAt : Option Int
  deriving Repr, DecidableEq

/-- The pagination block of a `PaginatedResponse`. -/
structure Pagination where
  limit : Nat
  offset : Nat
  total : Nat
  hasMore : Bool
  deriving Repr, DecidableEq

/-- The `PaginatedResponse<T>` interface of `HealthOps`. -/
structure PaginatedResponse (T : Type) where
  data : List T
  pagination : Pagination
  deriving Repr, DecidableEq

/-- The row-to-response mapping used by `getHealthCheck` and
`getHealthChecks`; `now` stands for `Date.now()`. -/
def healthCheckToResponse (now : Int) (check : HealthCheckRow) :
    HealthCheckResponse :=
  { id := check.id
    healthCheckUuid := check.healthCheckUuid
    triggerType := check.triggerType
    triggerSource := check.triggerSource
    status := check.status.getD "running"
    totalWorkers := check.totalWorkers.getD 0
    completedWorkers := check.completedWorkers.getD 0
    passedWorkers := check.passedWorkers.getD 0
    failedWorkers := check.failedWorkers.getD 0
    overallHealthScore := check.overallHealthScore.getD 0
    aiAnalysis := check.aiAnalysis
    aiRecommendations := check.aiRecommendations
    startedAt := check.startedAt.getD now
    completedAt := check.completedAt
    timeoutAt := check.timeoutAt
    createdAt := check.createdAt.getD now }

/-- The row-to-response mapping used by `getWorkerHealthCheck` and
`getWorkerHealthChecks`. -/
def workerHealthCheckToResponse (now : Int) (check : WorkerHealthCheckRow) :
    WorkerHealthCheckResponse :=
  { id := check.id
    workerCheckUuid := check.workerCheckUuid
    healthCheckUuid := check.healthCheckUuid
    workerName := check.workerName
    workerType := check.workerType
    workerUrl := check.workerUrl
    status := check.status.getD "pending"
    overallStatus := check.overallStatus
    healthScore := check.healthScore.getD 0
    createdAt := check.createdAt.getD now
    completedAt := check.completedAt }

/-- Embedding of `HealthOps.getHealthCheck`: point lookup by run UUID
(`.where(eq(uuid)).limit(1)`), `null` when no row matches. -/
def getHealthCheck (db : HealthDB) (healthCheckUuid : String) (now : Int) :
    Option HealthCheckResponse :=
  (db.healthChecks.find? (fun r => r.healthCheckUuid == healthCheckUuid)).map
    (healthCheckToResponse now)

/-- Embedding of `HealthOps.getWorkerHealthCheck`: point lookup by check UUID. -/
def getWorkerHealthCheck (db : HealthDB) (workerCheckUuid : String)
    (now : Int) : Option WorkerHealthCheckResponse :=
  (db.workerHealthChecks.find?
      (fun r => r.workerCheckUuid == workerCheckUuid)).map
    (workerHealthCheckToResponse now)

/-- Parameters of `getHealthChecks`. -/
structure GetHealthChecksParams where
  triggerType : Option String
  status : Option String
  limit : Option Nat
  offset : Option Nat
  deriving Repr, DecidableEq

/-- The filter conditions built by `getHealthChecks`: a condition is
pushed only when the parameter is truthy (so the empty string, falsy in
JavaScript, pushes none), and `eq` on the nullable `status` column never
matches a `NULL`. -/
def healthCheckMatches (p : GetHealthChecksParams) (r : HealthCheckRow) :
    Bool :=
  (match p.triggerType with
    | none => true
    | some t => if t.isEmpty then true else r.triggerType == t) &&
  (match p.status with
    | none => true
    | some s => if s.isEmpty then true else r.status == some s)

/-- A nullable integer column as a sort key: SQLite sorts `NULL` below
every value. -/
def optKey (o : Option Int) : WithBot Int :=
  match o with
  | none => ⊥
  | some t => (t : WithBot Int)

/-- The `ORDER BY started_at DESC` comparison; descending order puts `NULL`
rows last. -/
def startedAtDesc (a b : HealthCheckRow) : Prop :=
  optKey b.startedAt ≤ optKey a.startedAt

instance : DecidableRel startedAtDesc := fun a b =>
  inferInstanceAs (Decidable (optKey b.startedAt ≤ optKey a.startedAt))

instance : IsTotal HealthCheckRow startedAtDesc :=
  ⟨fun a b => le_total (optKey b.startedAt) (optKey a.startedAt)⟩

instance : IsTrans HealthCheckRow startedAtDesc :=
  ⟨fun _ _ _ hab hbc => le_trans hbc hab⟩

/-- The page of rows selected by `getHealthChecks`: filter, order by
start time descending, then `OFFSET`/`LIMIT`. -/
def getHealthChecksPage (db : HealthDB) (p : GetHealthChecksParams) :
    List HealthCheckRow :=
  ((List.insertionSort startedAtDesc
      (db.healthChecks.filter (healthCheckMatches p))).drop
    (p.offset.getD 0)).take (p.limit.getD 50)

/-- Embedding of `HealthOps.getHealthChecks`: filtered, ordered, paginated run
listing; the total is a second count over the same conditions. -/
def getHealthChecks (db : HealthDB) (p : GetHealthChecksParams)
    (now : Int) : PaginatedResponse HealthCheckResponse :=
  let limit := p.limit.getD 50
  let offset := p.offset.getD 0
  let total := (db.healthChecks.filter (healthCheckMatches p)).length
  { data := (getHealthChecksPage db p).map (healthCheckToResponse now)
    pagination :=
      { limit := limit
        offset := offset
        total := total
        hasMore := decide (offset + limit < total) } }

/-- Parameters of `getWorkerHealthChecks`. -/
structure GetWorkerHealthChecksParams where
  healthCheckUuid : String
  limit : Option Nat
  offset : Option Nat
  deriving Repr, DecidableEq

/-- The `ORDER BY created_at DESC` comparison for worker results. -/
def createdAtDesc (a b : WorkerHealthCheckRow) : Prop :=
  optKey b.createdAt ≤ optKey a.createdAt

instance : DecidableRel createdAtDesc := fun a b =>
  inferInstanceAs (Decidable (optKey b.createdAt ≤ optKey a.createdAt))

instance : IsTotal WorkerHealthCheckRow createdAtDesc :=
  ⟨fun a b => le_total (optKey b.createdAt) (optKey a.createdAt)⟩

instance : IsTrans WorkerHealthCheckRow createdAtDesc :=
  ⟨fun _ _ _ hab hbc => le_trans hbc hab⟩

/-- The page of rows selected by `getWorkerHealthChecks`. -/
def getWorkerHealthChecksPage (db : HealthDB)
    (p : GetWorkerHealthChecksParams) : List WorkerHealthCheckRow :=
  ((List.insertionSort createdAtDesc
      (db.workerHealthChecks.filter
        (fun r => r.healthCheckUuid == p.healthCheckUuid))).drop
    (p.offset.getD 0)).take (p.limit.getD 100)

/-- Embedding of `HealthOps.getWorkerHealthChecks`: a run's child results, ordered by
creation time descending, paginated. -/
def getWorkerHealthChecks (db : HealthDB) (p : GetWorkerHealthChecksParams)
    (now : Int) : PaginatedResponse WorkerHealthCheckResponse :=
  let limit := p.limit.getD 100
  let offset := p.offset.getD 0
  let total :=
    (db.workerHealthChecks.filter
      (fun r => r.healthCheckUuid == p.healthCheckUuid)).length
  { data :=
      (getWorkerHealthChecksPage db p).map (workerHealthCheckToResponse now)
    pagination :=
      { limit := limit
        offset := offset
        total := total
        hasMore := decide (offset + limit < total) } }

/-- Parameters of `createHealthCheck`. -/
structure CreateHealthCheckParams where
  healthCheckUuid : String
  triggerType : String
  triggerSource : Option String
  totalWorkers : Option Nat
  timeoutAt : Option Int
  deriving Repr, DecidableEq

/-- Embedding of `HealthOps.createHealthCheck`: inserts a run row in `running` status;
columns not in the insert (counts, score, timestamps other than
`timeout_at`) are left to the schema, modelled as `NULL`. -/
def createHealthCheck (db : HealthDB) (p : CreateHealthCheckParams) :
    HealthDB × Nat :=
  let row : HealthCheckRow :=
    { id := db.nextId
      healthCheckUuid := p.healthCheckUuid
      triggerType := p.triggerType
      triggerSource := p.triggerSource
      status := some "running"
      totalWorkers := some (p.totalWorkers.getD 0)
      completedWorkers := none
      passedWorkers := none
      failedWorkers := none
      overallHealthScore := none
      aiAnalysis := none
      aiRecommendations := none
      startedAt := none
      completedAt := none
      timeoutAt := p.timeoutAt
      createdAt := none }
  ({ db with
      healthChecks := db.healthChecks ++ [row]
      nextId := db.nextId + 1 },
   db.nextId)

/-- Parameters of `createWorkerHealthCheck`. -/
structure CreateWorkerHealthCheckParams where
  workerCheckUuid : String
  healthCheckUuid : String
  workerName : String
  workerType : String
  workerUrl : Option String
  deriving Repr, DecidableEq

/-- Embedding of `HealthOps.createWorkerHealthCheck`: inserts a `pending` worker result
row carrying the given run UUID.  The source performs no lookup of the
run: the insert is unconditional. -/
def createWorkerHealthCheck (db : HealthDB)
    (p : CreateWorkerHealthCheckParams) : HealthDB × Nat :=
  let row : WorkerHealthCheckRow :=
    { id := db.nextId
      workerCheckUuid := p.workerCheckUuid
      healthCheckUuid := p.healthCheckUuid
      workerName := p.workerName
      workerType := p.workerType
      workerUrl := p.workerUrl
      status := some "pending"
      overallStatus := none
      healthScore := none
      createdAt := none
      completedAt := none }
  ({ db with
      workerHealthChecks := db.workerHealthChecks ++ [row]
      nextId := db.nextId + 1 },
   db.nextId)

/-- The `{ ok: boolean }` result of the update operations. -/
structure OkResponse where
  ok : Bool
  deriving Repr, DecidableEq

/-- Parameters of `updateHealthCheck`; `none` is an absent field
(`undefined`), which is not written. -/
structure UpdateHealthCheckParams where
  healthCheckUuid : String
  status : Option String
  completedWorkers : Option Nat
  passedWorkers : Option Nat
  failedWorkers : Option Nat
  overallHealthScore : Option Rat
  aiAnalysis : Option String
  aiRecommendations : Option String
  completedAt : Option Int
  deriving Repr, DecidableEq

/-- The partial update (`updateData`) applied by `updateHealthCheck` to a
matching row. -/
def applyHealthCheckUpdate (p : UpdateHealthCheckParams)
    (r : HealthCheckRow) : HealthCheckRow :=
  { r with
    status := match p.status with | none => r.status | some v => some v
    completedWorkers :=
      match p.completedWorkers with
      | none => r.completedWorkers
      | some v => some v
    passedWorkers :=
      match p.passedWorkers with | none => r.passedWorkers | some v => some v
    failedWorkers :=
      match p.failedWorkers with | none => r.failedWorkers | some v => some v
    overallHealthScore :=
      match p.overallHealthScore with
      | none => r.overallHealthScore
      | some v => some v
    aiAnalysis :=
      match p.aiAnalysis with | none => r.aiAnalysis | some v => some v
    aiRecommendations :=
      match p.aiRecommendations with
      | none => r.aiRecommendations
      | some v => some v
    completedAt :=
      match p.completedAt with | none => r.completedAt | some v => some v }

/-- Embedding of `HealthOps.updateHealthCheck`: `UPDATE ... WHERE health_check_uuid = ?`
then unconditionally `{ ok: true }`. -/
def updateHealthCheck (db : HealthDB) (p : UpdateHealthCheckParams) :
    HealthDB × OkResponse :=
  ({ db with
      healthChecks := db.healthChecks.map (fun r =>
        if r.healthCheckUuid == p.healthCheckUuid then
          applyHealthCheckUpdate p r
        else r) },
   { ok := true })

/-- Parameters of `updateWorkerHealthCheck`. -/
structure UpdateWorkerHealthCheckParams where
  workerCheckUuid : String
  status : Option String
  overallStatus : Option String
  healthScore : Option Rat
  completedAt : Option Int
  deriving Repr, DecidableEq

/-- The partial update applied by `updateWorkerHealthCheck` to a matching
row. -/
def applyWorkerHealthCheckUpdate (p : UpdateWorkerHealthCheckParams)
    (r : WorkerHealthCheckRow) : WorkerHealthCheckRow :=
  { r with
    status := match p.status with | none => r.status | some v => some v
    overallStatus :=
      match p.overallStatus with | none => r.overallStatus | some v => some v
    healthScore :=
      match p.healthScore with | none => r.healthScore | some v => some v
    completedAt :=
      match p.completedAt with | none => r.completedAt | some v => some v }

/-- Embedding of `HealthOps.updateWorkerHealthCheck`: `UPDATE ... WHERE
worker_check_uuid = ?` then unconditionally `{ ok: true }`. -/
def updateWorkerHealthCheck (db : HealthDB)
    (p : UpdateWorkerHealthCheckParams) : HealthDB × OkResponse :=
  ({ db with
      workerHealthChecks := db.workerHealthChecks.map (fun r =>
        if r.workerCheckUuid == p.workerCheckUuid then
          applyWorkerHealthCheckUpdate p r
        else r) },
   { ok := true })

/-- Spec-side companion definition, following the spec's words: the
followups of type `blocked` recorded for an order. -/
def blockedFollowups (db : OrdersDB) (orderId : String) : List FollowupRow :=
  (db.followups.filter (fun f => f.order_id == orderId)).filter
    (fun f => f.type == "blocked")

/-- Spec-side companion definition: the order's blocked count. -/
def countBlocked (db : OrdersDB) (orderId : String) : Nat :=
  (blockedFollowups db orderId).length

/-- Spec-side companion definition, following the spec's words: the issue
dispatch final QA is specified to perform — nothing when no blocked
followup remains; otherwise exactly one issue referencing the first
blocked item's file path and the order's blocked count. -/
def specFinalQAIssues (db : OrdersDB) (orderId now : String) :
    List (IssueContext × String) :=
  match (generateDeliveryReport db orderId now).followups.filter
      (fun f => f.type == "blocked") with
  | [] => []
  | b :: _ =>
    [({ error_code := some "final_qa_blocked"
        file_path := b.file_path.getD "unknown"
        message := toString (countBlocked db orderId) ++
          " unresolved blockers."
        order_id := some orderId },
      "Final QA failed — unresolved followups remain.")]


/-! ## Concrete stores used as witnesses and counterexamples -/

/-- A blocked followup for order `order-1`. -/
def blockedFollowupEx : FollowupRow :=
  { order_id := "order-1"
    type := "blocked"
    impact_level := 2
    file_path := some "src/app.ts"
    message := "migration blocked" }

/-- An orders database holding exactly one blocked followup. -/
def blockedOrdersDB : OrdersDB :=
  { followups := [blockedFollowupEx], operation_logs := [] }

/-- An orders database with no rows at all. -/
def emptyOrdersDB : OrdersDB :=
  { followups := [], operation_logs := [] }

/-- An empty health database. -/
def emptyHealthDB : HealthDB :=
  { healthChecks := [], workerHealthChecks := [], nextId := 1 }

/-- A run still in `running` status whose stored score is `NULL`. -/
def runningRow : HealthCheckRow :=
  { id := 1
    healthCheckUuid := "run-1"
    triggerType := "manual"
    triggerSource := none
    status := some "running"
    totalWorkers := some 3
    completedWorkers := some 0
    passedWorkers := some 0
    failedWorkers := some 0
    overallHealthScore := none
    aiAnalysis := none
    aiRecommendations := none
    startedAt := some 100
    completedAt := none
    timeoutAt := none
    createdAt := some 100 }

/-- A worker result still `pending`, stored score `NULL`. -/
def pendingRow : WorkerHealthCheckRow :=
  { id := 2
    workerCheckUuid := "wc-1"
    healthCheckUuid := "run-1"
    workerName := "ui-factory"
    workerType := "factory"
    workerUrl := none
    status := some "pending"
    overallStatus := none
    healthScore := none
    createdAt := some 101
    completedAt := none }

/-- A health database holding the running run and its pending result. -/
def runningHealthDB : HealthDB :=
  { healthChecks := [runningRow]
    workerHealthChecks := [pendingRow]
    nextId := 3 }

/-! ## Helper lemmas -/

/-- The report's followups field, unfolded. -/
theorem report_followups_eq (db : OrdersDB) (orderId now : String) :
    (generateDeliveryReport db orderId now).followups =
      List.insertionSort impactLe
        (db.followups.filter (fun f => f.order_id == orderId)) := rfl

/-- The report's operations field, unfolded. -/
theorem report_operations_eq (db : OrdersDB) (orderId now : String) :
    (generateDeliveryReport db orderId now).operations =
      db.operation_logs.filter (fun o => o.order_id == orderId) := rfl

/-- Filtering the report's followups for `blocked` yields a permutation
of the order's blocked followups. -/
theorem report_blocked_perm (db : OrdersDB) (orderId now : String) :
    ((generateDeliveryReport db orderId now).followups.filter
        (fun f => f.type == "blocked")).Perm (blockedFollowups db orderId) := by
  rw [report_followups_eq]
  exact (List.perm_insertionSort impactLe _).filter _

/-- Membership in `blockedFollowups`, unfolded. -/
theorem mem_blockedFollowups (db : OrdersDB) (orderId : String)
    (f : FollowupRow) :
    f ∈ blockedFollowups db orderId ↔
      f ∈ db.followups ∧ f.order_id = orderId ∧ f.type = "blocked" := by
  simp only [blockedFollowups, List.mem_filter, beq_iff_eq, and_assoc]

/-- An order has a blocked followup iff the report's blocked filter is
non-empty. -/
theorem exists_blocked_iff (db : OrdersDB) (orderId now : String) :
    (∃ f ∈ db.followups, f.order_id = orderId ∧ f.type = "blocked") ↔
      (generateDeliveryReport db orderId now).followups.filter
          (fun f => f.type == "blocked") ≠ [] := by
  constructor
  · rintro ⟨f, hf, ho, ht⟩ hnil
    have hmem : f ∈ blockedFollowups db orderId :=
      (mem_blockedFollowups db orderId f).mpr ⟨hf, ho, ht⟩
    have hmem2 := (report_blocked_perm db orderId now).mem_iff.mpr hmem
    rw [hnil] at hmem2
    exact absurd hmem2 (List.not_mem_nil f)
  · intro hne
    obtain ⟨f, hf⟩ := List.exists_mem_of_ne_nil _ hne
    have hmem := (report_blocked_perm db orderId now).mem_iff.mp hf
    obtain ⟨h1, h2, h3⟩ := (mem_blockedFollowups db orderId f).mp hmem
    exact ⟨f, h1, h2, h3⟩

/-- Evaluation of `finalQA` when no blocked followup remains in the report. -/
theorem finalQA_nil (bk : Bool) (db : OrdersDB) (orderId now : String)
    (hl : (generateDeliveryReport db orderId now).followups.filter
        (fun f => f.type == "blocked") = []) :
    finalQA bk db orderId now =
      Except.ok
        { report := generateDeliveryReport db orderId now
          status := "passed"
          issues := [] } := by
  simp only [finalQA]
  rw [hl]

/-- Evaluation of `finalQA` when the report's blocked filter is non-empty. -/
theorem finalQA_cons (bk : Bool) (db : OrdersDB) (orderId now : String)
    (bb : FollowupRow) (bs : List FollowupRow)
    (hl : (generateDeliveryReport db orderId now).followups.filter
        (fun f => f.type == "blocked") = bb :: bs) :
    finalQA bk db orderId now =
      match createIssue bk
          { order_id := some orderId
            file_path := bb.file_path.getD "unknown"
            error_code := some "final_qa_blocked"
            message := toString (bb :: bs).length ++ " unresolved blockers." }
          "Final QA failed — unresolved followups remain." with
      | Except.error e => Except.error e
      | Except.ok issues =>
        Except.ok
          { report := generateDeliveryReport db orderId now
            status := "failed"
            issues := issues } := by
  simp only [finalQA]
  rw [hl]

/-! ## Claim theorems -/

/-- C1: for every order, `finalQA` returns overall status `failed` iff at
least one followup of type `blocked` exists for that order and `passed`
otherwise, and the remediation issue it dispatches when failing references
the first blocked item's file path and the blocked count
(`specFinalQAIssues`). -/
theorem finalQA_verdict (db : OrdersDB) (orderId now : String) :
    ∃ r, finalQA false db orderId now = Except.ok r ∧
      r.report = generateDeliveryReport db orderId now ∧
      (r.status = "failed" ↔
        ∃ f ∈ db.followups, f.order_id = orderId ∧ f.type = "blocked") ∧
      (r.status = "passed" ↔
        ¬∃ f ∈ db.followups, f.order_id = orderId ∧ f.type = "blocked") ∧
      r.issues = specFinalQAIssues db orderId now := by
  have hperm := report_blocked_perm db orderId now
  cases hl : (generateDeliveryReport db orderId now).followups.filter
      (fun f => f.type == "blocked") with
  | nil =>
    have hno : ¬∃ f ∈ db.followups, f.order_id = orderId ∧
        f.type = "blocked" := fun h =>
      (exists_blocked_iff db orderId now).mp h hl
    refine ⟨_, finalQA_nil false db orderId now hl, rfl, ?_, ?_, ?_⟩
    · constructor
      · intro h
        simp at h
      · intro h
        exact absurd h hno
    · exact iff_of_true rfl hno
    · simp only [specFinalQAIssues, hl]
  | cons bb bs =>
    have hyes : ∃ f ∈ db.followups, f.order_id = orderId ∧
        f.type = "blocked" := by
      apply (exists_blocked_iff db orderId now).mpr
      rw [hl]
      exact List.cons_ne_nil bb bs
    have hcnt : (bb :: bs).length = countBlocked db orderId := by
      have hlen := hperm.length_eq
      rw [hl] at hlen
      exact hlen
    refine ⟨{ report := generateDeliveryReport db orderId now
              status := "failed"
              issues :=
                [({ order_id := some orderId
                    file_path := bb.file_path.getD "unknown"
                    error_code := some "final_qa_blocked"
                    message := toString (bb :: bs).length ++
                      " unresolved blockers." },
                  "Final QA failed — unresolved followups remain.")] },
      ?_, rfl, ?_, ?_, ?_⟩
    · rw [finalQA_cons false db orderId now bb bs hl]
      rfl
    · exact iff_of_true rfl hyes
    · constructor
      · intro h
        simp at h
      · intro h
        exact absurd hyes h
    · simp only [specFinalQAIssues, hl, hcnt]

/-- C2 counterexample: for an order with one blocked followup and a
failing issue backend, `finalQA` surfaces the `RemediationError` instead
of returning its computed `failed` verdict — the remediation failure is
not swallowed. -/
theorem finalQA_error_not_swallowed_cx :
    finalQA true blockedOrdersDB "order-1" "2026-01-01" =
      Except.error RemediationError.issueCreationFailed ∧
    (finalQA true blockedOrdersDB "order-1" "2026-01-01").isOk = false :=
  ⟨rfl, rfl⟩

/-- C2 (amended): when an order has a blocked followup, a failure of the
issue-creation call propagates out of `finalQA` as the
`RemediationError`; only when no blocked followup exists does `finalQA`
return its verdict irrespective of the issue backend. -/
theorem finalQA_error_propagates (db : OrdersDB) (orderId now : String)
    (bk : Bool) :
    ((∃ f ∈ db.followups, f.order_id = orderId ∧ f.type = "blocked") →
      finalQA true db orderId now =
        Except.error RemediationError.issueCreationFailed) ∧
    ((¬∃ f ∈ db.followups, f.order_id = orderId ∧ f.type = "blocked") →
      finalQA bk db orderId now =
        Except.ok
          { report := generateDeliveryReport db orderId now
            status := "passed"
            issues := [] }) := by
  constructor
  · intro h
    have hne := (exists_blocked_iff db orderId now).mp h
    cases hl : (generateDeliveryReport db orderId now).followups.filter
        (fun f => f.type == "blocked") with
    | nil => exact absurd hl hne
    | cons bb bs =>
      rw [finalQA_cons true db orderId now bb bs hl]
      rfl
  · intro h
    cases hl : (generateDeliveryReport db orderId now).followups.filter
        (fun f => f.type == "blocked") with
    | nil => exact finalQA_nil bk db orderId now hl
    | cons bb bs =>
      exfalso
      apply h
      apply (exists_blocked_iff db orderId now).mpr
      rw [hl]
      exact List.cons_ne_nil bb bs

/-- C2 witness: the amended claim applied to the concrete one-blocked
store with a failing backend and to the empty store. -/
theorem finalQA_error_propagates_witness :
    finalQA true blockedOrdersDB "order-1" "2026-01-01" =
      Except.error RemediationError.issueCreationFailed ∧
    finalQA true emptyOrdersDB "order-1" "2026-01-01" =
      Except.ok
        { report := generateDeliveryReport emptyOrdersDB "order-1"
            "2026-01-01"
          status := "passed"
          issues := [] } :=
  ⟨(finalQA_error_propagates blockedOrdersDB "order-1" "2026-01-01" true).1
      ⟨blockedFollowupEx, by simp [blockedOrdersDB], rfl, rfl⟩,
   (finalQA_error_propagates emptyOrdersDB "order-1" "2026-01-01" true).2
      (by simp [emptyOrdersDB])⟩

/-- C5: a conflict-resolution call with a non-empty file list dispatches
exactly one remediation issue, carrying error code `merge_conflict` and
the first file as its file path; in particular `["a.ts", "b.ts"]` yields
one issue referencing `a.ts`. -/
theorem resolveConflict_one_issue (repo branch f : String)
    (rest : List String) :
    resolveConflict false repo branch (f :: rest) =
      Except.ok
        [({ error_code := some "merge_conflict"
            file_path := f
            message := "Conflict detected in " ++ repo ++ ":" ++ branch ++
              " → " ++ String.intercalate ", " (f :: rest)
            order_id := none },
          "Ops Specialist auto-detected conflict and opened an issue.")] ∧
    (resolveConflict false "core" "main" ["a.ts", "b.ts"]).toOption.map
        (fun l => (l.length, l.map (fun i => i.1.file_path))) =
      some (1, ["a.ts"]) :=
  ⟨rfl, rfl⟩

/-- C7: the delivery report's followups are sorted by ascending impact
level and are exactly (a permutation of) the order's followups, its
operations are the order's operation logs, and the summary counts equal
the lengths of the returned followups and operations. -/
theorem deliveryReport_sorted_counts (db : OrdersDB) (orderId now : String) :
    List.Sorted impactLe (generateDeliveryReport db orderId now).followups ∧
    ((generateDeliveryReport db orderId now).followups).Perm
      (db.followups.filter (fun f => f.order_id == orderId)) ∧
    (generateDeliveryReport db orderId now).operations =
      db.operation_logs.filter (fun o => o.order_id == orderId) ∧
    (generateDeliveryReport db orderId now).summary.issues =
      (generateDeliveryReport db orderId now).followups.length ∧
    (generateDeliveryReport db orderId now).summary.ops_count =
      (generateDeliveryReport db orderId now).operations.length := by
  refine ⟨?_, ?_, report_operations_eq db orderId now, rfl, rfl⟩
  · rw [report_followups_eq]
    exact List.sorted_insertionSort impactLe _
  · rw [report_followups_eq]
    exact List.perm_insertionSort impactLe _

/-- C3: for both listing calls, any filter and any limit/offset choice,
`hasMore` equals `offset + limit < total`, the total is the count under
the same filter predicate as the page, and the page length never exceeds
the (defaulted) limit. -/
theorem listing_pagination_invariant (db : HealthDB)
    (p : GetHealthChecksParams) (q : GetWorkerHealthChecksParams)
    (now : Int) :
    ((getHealthChecks db p now).pagination.hasMore =
      decide ((getHealthChecks db p now).pagination.offset +
        (getHealthChecks db p now).pagination.limit <
        (getHealthChecks db p now).pagination.total)) ∧
    (getHealthChecks db p now).pagination.total =
      (db.healthChecks.filter (healthCheckMatches p)).length ∧
    (getHealthChecks db p now).data.length ≤
      (getHealthChecks db p now).pagination.limit ∧
    ((getWorkerHealthChecks db q now).pagination.hasMore =
      decide ((getWorkerHealthChecks db q now).pagination.offset +
        (getWorkerHealthChecks db q now).pagination.limit <
        (getWorkerHealthChecks db q now).pagination.total)) ∧
    (getWorkerHealthChecks db q now).pagination.total =
      (db.workerHealthChecks.filter
        (fun r => r.healthCheckUuid == q.healthCheckUuid)).length ∧
    (getWorkerHealthChecks db q now).data.length ≤
      (getWorkerHealthChecks db q now).pagination.limit := by
  refine ⟨rfl, rfl, ?_, rfl, rfl, ?_⟩
  · show ((getHealthChecksPage db p).map (healthCheckToResponse now)).length ≤
      p.limit.getD 50
    rw [List.length_map]
    exact List.length_take_le _ _
  · show ((getWorkerHealthChecksPage db q).map
      (workerHealthCheckToResponse now)).length ≤ q.limit.getD 100
    rw [List.length_map]
    exact List.length_take_le _ _

/-- C6: the point lookups return `none` exactly when no row with the
requested UUID exists; absence is a value of the (total) lookup
functions, never an error. -/
theorem point_lookup_absent_value (db : HealthDB) (u : String) (now : Int) :
    (getHealthCheck db u now = none ↔
      ∀ r ∈ db.healthChecks, r.healthCheckUuid ≠ u) ∧
    (getWorkerHealthCheck db u now = none ↔
      ∀ r ∈ db.workerHealthChecks, r.workerCheckUuid ≠ u) := by
  constructor
  · simp [getHealthCheck, List.find?_eq_none]
  · simp [getWorkerHealthCheck, List.find?_eq_none]

/-- C8: run listing pages are ordered by start time descending and result
listing pages by creation time descending; the returned data is exactly
the row-to-response image of those ordered pages. -/
theorem listing_order_descending (db : HealthDB)
    (p : GetHealthChecksParams) (q : GetWorkerHealthChecksParams)
    (now : Int) :
    List.Sorted startedAtDesc (getHealthChecksPage db p) ∧
    (getHealthChecks db p now).data =
      (getHealthChecksPage db p).map (healthCheckToResponse now) ∧
    List.Sorted createdAtDesc (getWorkerHealthChecksPage db q) ∧
    (getWorkerHealthChecks db q now).data =
      (getWorkerHealthChecksPage db q).map
        (workerHealthCheckToResponse now) := by
  refine ⟨?_, rfl, ?_, rfl⟩
  · exact List.Pairwise.sublist
      ((List.take_sublist _ _).trans (List.drop_sublist _ _))
      (List.sorted_insertionSort startedAtDesc _)
  · exact List.Pairwise.sublist
      ((List.take_sublist _ _).trans (List.drop_sublist _ _))
      (List.sorted_insertionSort createdAtDesc _)

/-- C10: both update operations answer `{ ok := true }` for every
identifier, and an update whose identifier matches no stored row leaves
the store unchanged. -/
theorem update_ok_and_unmatched_noop (db : HealthDB)
    (p : UpdateHealthCheckParams) (q : UpdateWorkerHealthCheckParams) :
    (updateHealthCheck db p).2.ok = true ∧
    (updateWorkerHealthCheck db q).2.ok = true ∧
    ((∀ r ∈ db.healthChecks, r.healthCheckUuid ≠ p.healthCheckUuid) →
      (updateHealthCheck db p).1 = db) ∧
    ((∀ r ∈ db.workerHealthChecks, r.workerCheckUuid ≠ q.workerCheckUuid) →
      (updateWorkerHealthCheck db q).1 = db) := by
  refine ⟨rfl, rfl, ?_, ?_⟩
  · intro h
    show ({ db with
      healthChecks := db.healthChecks.map (fun r =>
        if r.healthCheckUuid == p.healthCheckUuid then
          applyHealthCheckUpdate p r
        else r) } : HealthDB) = db
    have hmap : db.healthChecks.map (fun r =>
        if r.healthCheckUuid == p.healthCheckUuid then
          applyHealthCheckUpdate p r
        else r) = db.healthChecks := by
      rw [List.map_congr_left (g := id) (fun r hr => by
        simp [beq_iff_eq, h r hr])]
      exact List.map_id _
    rw [hmap]
  · intro h
    show ({ db with
      workerHealthChecks := db.workerHealthChecks.map (fun r =>
        if r.workerCheckUuid == q.workerCheckUuid then
          applyWorkerHealthCheckUpdate q r
        else r) } : HealthDB) = db
    have hmap : db.workerHealthChecks.map (fun r =>
        if r.workerCheckUuid == q.workerCheckUuid then
          applyWorkerHealthCheckUpdate q r
        else r) = db.workerHealthChecks := by
      rw [List.map_congr_left (g := id) (fun r hr => by
        simp [beq_iff_eq, h r hr])]
      exact List.map_id _
    rw [hmap]

/-- An update request used in the C10 witness. -/
def updParamsEx : UpdateHealthCheckParams :=
  { healthCheckUuid := "hc-absent"
    status := some "completed"
    completedWorkers := some 2
    passedWorkers := none
    failedWorkers := none
    overallHealthScore := some 1
    aiAnalysis := none
    aiRecommendations := none
    completedAt := some 500 }

/-- A worker update request used in the C10 witness. -/
def updWorkerParamsEx : UpdateWorkerHealthCheckParams :=
  { workerCheckUuid := "wc-absent"
    status := some "completed"
    overallStatus := none
    healthScore := some 1
    completedAt := some 500 }

/-- C10 witness: updates against an empty store answer ok and change
nothing. -/
theorem update_ok_and_unmatched_noop_witness :
    (updateHealthCheck emptyHealthDB updParamsEx).2.ok = true ∧
    (updateWorkerHealthCheck emptyHealthDB updWorkerParamsEx).2.ok = true ∧
    (updateHealthCheck emptyHealthDB updParamsEx).1 = emptyHealthDB ∧
    (updateWorkerHealthCheck emptyHealthDB updWorkerParamsEx).1 =
      emptyHealthDB :=
  have h := update_ok_and_unmatched_noop emptyHealthDB updParamsEx
    updWorkerParamsEx
  ⟨h.1, h.2.1, h.2.2.1 (by simp [emptyHealthDB]),
    h.2.2.2 (by simp [emptyHealthDB])⟩

/-- A worker-result creation request naming a run that does not exist. -/
def danglingCreateParams : CreateWorkerHealthCheckParams :=
  { workerCheckUuid := "wc-dangling"
    healthCheckUuid := "no-such-run"
    workerName := "ui-factory"
    workerType := "factory"
    workerUrl := none }

/-- C4 counterexample: against an empty store (so the run `no-such-run`
does not exist), `createWorkerHealthCheck` succeeds — no `NotFoundError`
path exists — and the resulting store holds a pending result whose run
identifier references no run. -/
theorem createWorkerResult_no_notfound_cx :
    emptyHealthDB.healthChecks = [] ∧
    (createWorkerHealthCheck emptyHealthDB
        danglingCreateParams).1.workerHealthChecks.map
      (fun r => (r.healthCheckUuid, r.status)) =
      [("no-such-run", some "pending")] ∧
    (createWorkerHealthCheck emptyHealthDB
        danglingCreateParams).1.healthChecks = [] :=
  ⟨rfl, rfl, rfl⟩

/-- C4 (amended): `createWorkerHealthCheck` performs no run-existence
check; even when no run carries the given identifier it succeeds and the
new store contains a pending, score-less result whose run identifier
references no existing run. -/
theorem createWorkerResult_unchecked (db : HealthDB)
    (p : CreateWorkerHealthCheckParams)
    (h : ∀ r ∈ db.healthChecks, r.healthCheckUuid ≠ p.healthCheckUuid) :
    ∃ w ∈ (createWorkerHealthCheck db p).1.workerHealthChecks,
      w.healthCheckUuid = p.healthCheckUuid ∧ w.status = some "pending" ∧
      w.healthScore = none ∧
      ∀ r ∈ (createWorkerHealthCheck db p).1.healthChecks,
        r.healthCheckUuid ≠ w.healthCheckUuid := by
  refine ⟨{ id := db.nextId
            workerCheckUuid := p.workerCheckUuid
            healthCheckUuid := p.healthCheckUuid
            workerName := p.workerName
            workerType := p.workerType
            workerUrl := p.workerUrl
            status := some "pending"
            overallStatus := none
            healthScore := none
            createdAt := none
            completedAt := none }, ?_, rfl, rfl, rfl, ?_⟩
  · exact List.mem_append_right _ (List.mem_singleton_self _)
  · intro r hr
    exact h r hr

/-- C4 witness: the amended claim instantiated at the empty store. -/
theorem createWorkerResult_unchecked_witness :
    ∃ w ∈ (createWorkerHealthCheck emptyHealthDB
        danglingCreateParams).1.workerHealthChecks,
      w.healthCheckUuid = danglingCreateParams.healthCheckUuid ∧
      w.status = some "pending" ∧ w.healthScore = none ∧
      ∀ r ∈ (createWorkerHealthCheck emptyHealthDB
          danglingCreateParams).1.healthChecks,
        r.healthCheckUuid ≠ w.healthCheckUuid :=
  createWorkerResult_unchecked emptyHealthDB danglingCreateParams
    (by simp [emptyHealthDB])

/-- An update writing a score onto the still-running run `run-1`. -/
def scoreWhileRunningParams : UpdateHealthCheckParams :=
  { healthCheckUuid := "run-1"
    status := none
    completedWorkers := none
    passedWorkers := none
    failedWorkers := none
    overallHealthScore := some ((7 : Rat) / 10)
    aiAnalysis := none
    aiRecommendations := none
    completedAt := none }

/-- C9 counterexample: looking up the running run (stored score `NULL`)
surfaces the defined score `0`, looking up the pending result surfaces
the defined score `0`, and `updateHealthCheck` happily stores a defined
score on a run whose status is still `running`, which the lookup then
surfaces. -/
theorem running_lookup_surfaces_score_cx :
    (getHealthCheck runningHealthDB "run-1" 200).map
      (fun r => (r.status, r.overallHealthScore)) = some ("running", 0) ∧
    (getWorkerHealthCheck runningHealthDB "wc-1" 200).map
      (fun r => (r.status, r.healthScore)) = some ("pending", 0) ∧
    (getHealthCheck
        (updateHealthCheck runningHealthDB scoreWhileRunningParams).1
        "run-1" 200).map
      (fun r => (r.status, r.overallHealthScore)) =
      some ("running", (7 : Rat) / 10) :=
  ⟨rfl, rfl, rfl⟩

/-- C9 (amended): the stored score columns are nullable, but both point
lookups always surface a defined numeric score — the stored value
coalesced with `0` — regardless of the run or result status; no
definedness of the surfaced score is tied to the lifecycle status. -/
theorem lookup_score_coalesced (db : HealthDB) (u : String) (now : Int) :
    (∀ resp, getHealthCheck db u now = some resp →
      ∃ row ∈ db.healthChecks, row.healthCheckUuid = u ∧
        resp.status = row.status.getD "running" ∧
        resp.overallHealthScore = row.overallHealthScore.getD 0) ∧
    (∀ resp, getWorkerHealthCheck db u now = some resp →
      ∃ row ∈ db.workerHealthChecks, row.workerCheckUuid = u ∧
        resp.status = row.status.getD "pending" ∧
        resp.healthScore = row.healthScore.getD 0) := by
  constructor
  · intro resp hresp
    rw [getHealthCheck, Option.map_eq_some'] at hresp
    obtain ⟨row, hfind, hmap⟩ := hresp
    have hb := List.find?_some hfind
    refine ⟨row, List.mem_of_find?_eq_some hfind, eq_of_beq hb, ?_, ?_⟩
    · rw [← hmap]
      rfl
    · rw [← hmap]
      rfl
  · intro resp hresp
    rw [getWorkerHealthCheck, Option.map_eq_some'] at hresp
    obtain ⟨row, hfind, hmap⟩ := hresp
    have hb := List.find?_some hfind
    refine ⟨row, List.mem_of_find?_eq_some hfind, eq_of_beq hb, ?_, ?_⟩
    · rw [← hmap]
      rfl
    · rw [← hmap]
      rfl

/-- C9 witness: the amended claim instantiated at the running run. -/
theorem lookup_score_coalesced_witness :
    ∃ row ∈ runningHealthDB.healthChecks, row.healthCheckUuid = "run-1" ∧
      (healthCheckToResponse 200 runningRow).status =
        row.status.getD "running" ∧
      (healthCheckToResponse 200 runningRow).overallHealthScore =
        row.overallHealthScore.getD 0 :=
  (lookup_score_coalesced runningHealthDB "run-1" 200).1
    (healthCheckToResponse 200 runningRow) rfl
